import Mathlib

/-!
Shallow embedding of the engagement subsystem of the Bee-agency blog server
(Express + MongoDB).  The repository contains two server files that register
the relevant routes; `src/index.js` registers `POST /blogs/:slug/stats` twice,
and under Express routing the first registration (the `$addToSet`/`$inc`
variant, lines 301-397) handles every request, while the second (lines
400-528) is dead code.  The other server file (`src/unnamed/part_000`)
registers the read-modify-write variant once (lines 752-880).  Both variants
are embedded below (`statsAtomic`, `statsRMW`), together with the comment
endpoints of `src/unnamed/part_000`.

Modelling conventions, each matching the observable semantics of the source:
- A MongoDB collection is a `List` of documents in insertion order;
  `findOne` is `List.find?`, `updateOne` updates the first matching document.
- Timestamps (`new Date()`) are `Nat` values passed in as a `now` parameter.
- Numeric fields that the source reads with `|| 0` and mutates with `$inc`
  are stored directly (`Int` for `likes`, `Nat` for `views`): a document
  missing the field behaves identically to one holding `0` in every code
  path of these handlers.
- `likedBy` on a blog is `Option (List String)` because the source branches
  on `!blog.likedBy`; on comments it is always created as `[]`, so a plain
  list is used.
- JavaScript truthiness of an optional string (`!x` is true for a missing
  value and for the empty string) is `truthy`.
- `String.prototype.trim` is `jsTrim` (strip leading and trailing
  whitespace), implemented over the character list so that it reduces.
- `new ObjectId(s)` on an invalid id string throws, which the surrounding
  `try/catch` turns into a 500 response; validity (`isValidObjectId`) models
  the bson library contract for string input: exactly 24 hexadecimal
  characters.  Id strings are assumed to be in canonical lower-case form.
-/

/-- Models JavaScript truthiness of a possibly-missing string value:
`!x` is true exactly when the value is absent or the empty string. -/
def truthy : Option String → Bool
  | none => false
  | some s => !s.isEmpty

/-- Models JavaScript `array.includes(x)` where `x` itself may be
`undefined` (an absent request-body field): `includes(undefined)` is
false on an array of strings. -/
def includesOpt (l : List String) (u : Option String) : Bool :=
  match u with
  | none => false
  | some s => l.contains s

/-- Models JavaScript `String.prototype.trim`: strip leading and trailing
whitespace. -/
def jsTrim (s : String) : String :=
  String.mk (((s.toList.dropWhile Char.isWhitespace).reverse.dropWhile
    Char.isWhitespace).reverse)

/-- Hexadecimal digit test for ObjectId strings. -/
def isHexChar (c : Char) : Bool :=
  c.isDigit || (('a' ≤ c && c ≤ 'f') || ('A' ≤ c && c ≤ 'F'))

/-- Models the bson library contract for `new ObjectId(s)` on a string
argument: the constructor succeeds exactly when `s` is a 24-character
hexadecimal string, and throws otherwise. -/
def isValidObjectId (s : String) : Bool :=
  s.length == 24 && s.toList.all isHexChar

/-- Models MongoDB `updateOne`: apply `f` to the first element satisfying
`p`, leaving the rest of the list unchanged. -/
def updateFirst (p : α → Bool) (f : α → α) : List α → List α
  | [] => []
  | x :: xs => if p x then f x :: xs else x :: updateFirst p f xs

/-- Engagement fields of a blog post document in the `clients_info`
collection; other fields (title, excerpt, ...) are never read or written by
the stats handlers. -/
structure Blog where
  slug : String
  likes : Int
  views : Nat
  likedBy : Option (List String)
  lastViewed : Option Nat
deriving DecidableEq, Repr

/-- The distinct literal `updateQuery` objects built by the two
`POST /blogs/:slug/stats` handlers. -/
inductive UpdateQuery where
  /-- read-modify-write view: `$inc views 1`, `$set lastViewed`,
  `$set likedBy (blog.likedBy || [])`. -/
  | viewUpd (now : Nat) (likedBySet : List String)
  /-- atomic-variant view: `$inc views 1`, `$set lastViewed`. -/
  | viewUpdAtomic (now : Nat)
  /-- `$inc likes 1`, `$set likedBy [u]` (likedBy field absent). -/
  | likeInit (u : String)
  /-- `$inc likes 1`, `$push likedBy u`. -/
  | likePush (u : String)
  /-- `$inc likes 1`, `$addToSet likedBy u`. -/
  | likeAddToSet (u : String)
  /-- `$inc likes -1`, `$pull likedBy u`. -/
  | unlikePull (u : String)
deriving DecidableEq, Repr

/-- MongoDB semantics of each update document applied to a blog:
`$inc` on a missing numeric field treats it as 0, `$push` on a missing
array creates a singleton, `$addToSet` appends only when absent,
`$pull` removes every occurrence and is a no-op on a missing field. -/
def applyUpdate (q : UpdateQuery) (b : Blog) : Blog :=
  match q with
  | .viewUpd now lb =>
      { b with views := b.views + 1, lastViewed := some now, likedBy := some lb }
  | .viewUpdAtomic now =>
      { b with views := b.views + 1, lastViewed := some now }
  | .likeInit u =>
      { b with likes := b.likes + 1, likedBy := some [u] }
  | .likePush u =>
      { b with likes := b.likes + 1,
               likedBy := some ((b.likedBy.getD []) ++ [u]) }
  | .likeAddToSet u =>
      { b with likes := b.likes + 1,
               likedBy :=
                 match b.likedBy with
                 | none => some [u]
                 | some l => some (if l.contains u then l else l ++ [u]) }
  | .unlikePull u =>
      { b with likes := b.likes - 1,
               likedBy :=
                 match b.likedBy with
                 | none => none
                 | some l => some (l.filter (fun x => x ≠ u)) }

/-- Response of a `POST /blogs/:slug/stats` handler: the HTTP status
together with the JSON payload fields the handlers emit. -/
inductive StatsRes where
  | badRequest (msg : String)
  | notFound
  | internalError
  | ok (message : String) (likes : Int) (views : Nat) (isLiked : Bool)
deriving DecidableEq, Repr

/-- The `isLiked` field of a 200 response, when present. -/
def StatsRes.isLikedOf : StatsRes → Option Bool
  | .ok _ _ _ il => some il
  | _ => none

/-- The `likes` field of a 200 response, when present. -/
def StatsRes.likesOf : StatsRes → Option Int
  | .ok _ l _ _ => some l
  | _ => none

/-- Shared tail of the read-modify-write stats handler
(`src/unnamed/part_000` lines 841-871): an empty `updateQuery` answers
200 "No update needed" with the current state; otherwise `updateOne` is
applied and the blog re-fetched for the response.  The re-fetch coming back
empty would make the JS dereference `updatedBlog.likes` throw into the
catch-all (500); that branch is unreachable sequentially. -/
def statsApply (coll : List Blog) (slug act : String)
    (userIdentifier : Option String) (blog : Blog)
    (q : Option UpdateQuery) (isLiked : Bool) : StatsRes × List Blog :=
  match q with
  | none =>
      (.ok "No update needed" blog.likes blog.views
        (match blog.likedBy with
         | none => false
         | some l => includesOpt l userIdentifier), coll)
  | some q =>
      let coll2 := updateFirst (fun b => b.slug == slug) (applyUpdate q) coll
      match coll2.find? (fun b => b.slug == slug) with
      | none => (.internalError, coll2)
      | some ub =>
          (.ok ("Blog " ++ act ++ "d successfully") ub.likes ub.views isLiked,
           coll2)

/-- Read-modify-write `POST /blogs/:slug/stats` handler
(`src/unnamed/part_000` lines 752-880, identical to the dead second handler
of `src/index.js` lines 400-528): find the blog, branch on the action and
on current `likedBy` membership in application memory, then update. -/
def statsRMW (coll : List Blog) (slug : String)
    (action userIdentifier : Option String) (now : Nat) :
    StatsRes × List Blog :=
  if !(truthy action) then (.badRequest "Action is required", coll)
  else
    match coll.find? (fun b => b.slug == slug) with
    | none => (.notFound, coll)
    | some blog =>
      let act := action.getD ""
      let isLiked0 :=
        match blog.likedBy with
        | none => false
        | some l => includesOpt l userIdentifier
      if act == "view" then
        statsApply coll slug act userIdentifier blog
          (some (.viewUpd now (blog.likedBy.getD []))) isLiked0
      else if act == "like" then
        if !(truthy userIdentifier) then
          (.badRequest "User identifier is required for liking", coll)
        else
          let u := userIdentifier.getD ""
          match blog.likedBy with
          | none =>
              statsApply coll slug act userIdentifier blog
                (some (.likeInit u)) true
          | some l =>
              if !(l.contains u) then
                statsApply coll slug act userIdentifier blog
                  (some (.likePush u)) true
              else
                statsApply coll slug act userIdentifier blog none isLiked0
      else if act == "unlike" then
        if !(truthy userIdentifier) then
          (.badRequest "User identifier is required for unliking", coll)
        else
          let u := userIdentifier.getD ""
          match blog.likedBy with
          | some l =>
              if l.contains u then
                statsApply coll slug act userIdentifier blog
                  (some (.unlikePull u)) false
              else
                statsApply coll slug act userIdentifier blog none isLiked0
          | none =>
              statsApply coll slug act userIdentifier blog none isLiked0
      else
        (.badRequest "Invalid action: use like, unlike, or view", coll)

/-- Active `POST /blogs/:slug/stats` handler of `src/index.js`
(lines 301-397, the first registration, which Express selects): build an
unconditional update document per action and apply it with
`findOneAndUpdate` returning the post-update document; a null result means
no blog matched (404). -/
def statsAtomic (coll : List Blog) (slug : String)
    (action userIdentifier : Option String) (now : Nat) :
    StatsRes × List Blog :=
  if !(truthy action) then (.badRequest "Action is required", coll)
  else
    let act := action.getD ""
    let q : StatsRes ⊕ UpdateQuery :=
      if act == "view" then .inr (.viewUpdAtomic now)
      else if act == "like" then
        if !(truthy userIdentifier) then
          .inl (.badRequest "User identifier is required for liking")
        else .inr (.likeAddToSet (userIdentifier.getD ""))
      else if act == "unlike" then
        if !(truthy userIdentifier) then
          .inl (.badRequest "User identifier is required for unliking")
        else .inr (.unlikePull (userIdentifier.getD ""))
      else .inl (.badRequest "Invalid action: use like, unlike, or view")
    match q with
    | .inl r => (r, coll)
    | .inr q =>
      match coll.find? (fun b => b.slug == slug) with
      | none => (.notFound, coll)
      | some _ =>
        let coll2 := updateFirst (fun b => b.slug == slug) (applyUpdate q) coll
        match coll2.find? (fun b => b.slug == slug) with
        | none => (.internalError, coll2)
        | some ub =>
            let isLiked :=
              match ub.likedBy with
              | none => false
              | some l => includesOpt l userIdentifier
            (.ok ("Blog " ++ act ++ "d successfully") ub.likes ub.views
              isLiked, coll2)

/-- Iterated sequential execution of the view action of `statsRMW`,
keeping only the evolving collection state. -/
def viewIter (slug : String) (uid : Option String) (now : Nat) :
    Nat → List Blog → List Blog
  | 0, coll => coll
  | n + 1, coll =>
      viewIter slug uid now n (statsRMW coll slug (some "view") uid now).2

/-- Author subdocument stored on a comment. -/
structure Author where
  name : String
  email : String
  avatar : String
deriving DecidableEq, Repr

/-- A document of the `comments` collection.  `oid` is the `_id` ObjectId in
its canonical hex-string form; `parentId` is stored exactly as supplied in
the request body (the source compares it against `_id.toString()` of the
parent).  The default-avatar URL generation is modelled without
URI-encoding of the name, which no verified property depends on. -/
structure Comment where
  oid : String
  blogSlug : String
  content : String
  parentId : Option String
  author : Author
  likes : Int
  likedBy : List String
  isEdited : Bool
  isDeleted : Bool
  createdAt : Nat
  updatedAt : Nat
  userIdentifier : String
deriving DecidableEq, Repr

/-- Default avatar URL built by the create-comment handler when the request
carries no `authorAvatar` (URI-encoding of the name not modelled). -/
def defaultAvatar (name : String) : String :=
  "https://ui-avatars.com/api/?name=" ++ name ++ "&background=random"

/-- Response of a comment endpoint: HTTP status plus the payload fields the
handlers emit. -/
inductive CommentRes where
  | badRequest (msg : String)
  | notFound (msg : String)
  | forbidden (msg : String)
  /-- the catch-all 500 handler, reached when `new ObjectId` throws. -/
  | internalError
  | created (message : String) (data : Comment)
  | okComment (message : String) (data : Comment)
  | okDeleted (message : String)
  | okLike (message : String) (likes : Int) (likedBy : List String)
deriving DecidableEq, Repr

/-- HTTP status code of a comment-endpoint response. -/
def CommentRes.status : CommentRes → Nat
  | .badRequest _ => 400
  | .notFound _ => 404
  | .forbidden _ => 403
  | .internalError => 500
  | .created _ _ => 201
  | .okComment _ _ => 200
  | .okDeleted _ => 200
  | .okLike _ _ _ => 200

/-- `POST /blogs/:slug/comments` (`src/unnamed/part_000` lines 403-490):
validate content and author fields, resolve the identity (header value or a
generated anonymous id, both abstracted into `identity`), check the parent
when `parentId` is truthy (ObjectId construction throwing on a malformed id
string, then `findOne {_id, blogSlug}` with no constraint on the parent
being top-level), and insert the new comment.  `freshId` is the ObjectId
MongoDB assigns at insertion. -/
def createComment (coll : List Comment) (slug : String)
    (content parentId authorName authorEmail authorAvatar : Option String)
    (identity freshId : String) (now : Nat) : CommentRes × List Comment :=
  if !(truthy content) || (content.getD "" |> jsTrim).isEmpty then
    (.badRequest "Comment content is required", coll)
  else if !(truthy authorName) || !(truthy authorEmail) then
    (.badRequest "Author name and email are required", coll)
  else
    let parentCheck : Option CommentRes :=
      if truthy parentId then
        let pid := parentId.getD ""
        if !(isValidObjectId pid) then some .internalError
        else
          match coll.find? (fun c => c.oid == pid && c.blogSlug == slug) with
          | none => some (.notFound "Parent comment not found")
          | some _ => none
      else none
    match parentCheck with
    | some r => (r, coll)
    | none =>
        let nameT := jsTrim (authorName.getD "")
        let newComment : Comment :=
          { oid := freshId
            blogSlug := slug
            content := jsTrim (content.getD "")
            parentId := parentId
            author :=
              { name := nameT
                email := jsTrim (authorEmail.getD "")
                avatar :=
                  match authorAvatar with
                  | some a => if a.isEmpty then defaultAvatar nameT else a
                  | none => defaultAvatar nameT }
            likes := 0
            likedBy := []
            isEdited := false
            isDeleted := false
            createdAt := now
            updatedAt := now
            userIdentifier := identity }
        (.created
          (if truthy parentId then "Reply posted successfully"
           else "Comment posted successfully") newComment,
         coll ++ [newComment])

/-- The lookup filter `{_id, blogSlug, isDeleted: {$ne: true}}` shared by the
comment like/edit/delete handlers. -/
def commentFilter (commentId slug : String) (c : Comment) : Bool :=
  c.oid == commentId && c.blogSlug == slug && !c.isDeleted

/-- `POST /blogs/:slug/comments/:commentId/like`
(`src/unnamed/part_000` lines 493-566): toggle the caller's membership in
`likedBy` with the paired `$inc` on `likes`, then re-fetch by `_id` for the
response. -/
def likeComment (coll : List Comment) (slug commentId : String)
    (userId : Option String) : CommentRes × List Comment :=
  if !(truthy userId) then
    (.badRequest "User identifier is required", coll)
  else if !(isValidObjectId commentId) then (.internalError, coll)
  else
    let u := userId.getD ""
    match coll.find? (commentFilter commentId slug) with
    | none => (.notFound "Comment not found", coll)
    | some comment =>
        let isLiked := comment.likedBy.contains u
        let f : Comment → Comment :=
          if isLiked then
            fun c => { c with likes := c.likes - 1,
                              likedBy := c.likedBy.filter (fun x => x ≠ u) }
          else
            fun c => { c with likes := c.likes + 1,
                              likedBy := c.likedBy ++ [u] }
        let coll2 := updateFirst (fun c => c.oid == commentId) f coll
        match coll2.find? (fun c => c.oid == commentId) with
        | none => (.internalError, coll2)
        | some uc =>
            (.okLike (if isLiked then "Comment unliked" else "Comment liked")
              uc.likes uc.likedBy, coll2)

/-- `PUT /blogs/:slug/comments/:commentId`
(`src/unnamed/part_000` lines 569-650): validate content and identifier,
look the comment up under `commentFilter`, enforce ownership, then
`updateOne {_id}` setting the trimmed content, `isEdited`, `updatedAt`, and
re-fetch by `_id` for the response.  The `matchedCount === 0` re-check of
the source is kept as the `List.any` guard. -/
def editComment (coll : List Comment) (slug commentId : String)
    (content userIdentifier : Option String) (now : Nat) :
    CommentRes × List Comment :=
  if !(truthy content) || (content.getD "" |> jsTrim).isEmpty then
    (.badRequest "Comment content is required", coll)
  else if !(truthy userIdentifier) then
    (.badRequest "User identifier is required to edit", coll)
  else if !(isValidObjectId commentId) then (.internalError, coll)
  else
    match coll.find? (commentFilter commentId slug) with
    | none => (.notFound "Comment not found", coll)
    | some comment =>
        if comment.userIdentifier ≠ userIdentifier.getD "" then
          (.forbidden "You can only edit your own comments", coll)
        else if !(coll.any (fun c => c.oid == commentId)) then
          (.notFound "Comment not found", coll)
        else
          let coll2 := updateFirst (fun c => c.oid == commentId)
            (fun c => { c with content := jsTrim (content.getD ""),
                               isEdited := true, updatedAt := now }) coll
          match coll2.find? (fun c => c.oid == commentId) with
          | none => (.internalError, coll2)
          | some uc => (.okComment "Comment updated successfully" uc, coll2)

/-- Fixed placeholder written over the content of a soft-deleted comment. -/
def deletedPlaceholder : String := "This comment has been deleted."

/-- `DELETE /blogs/:slug/comments/:commentId`
(`src/unnamed/part_000` lines 653-721): validate the identifier, look the
comment up under `commentFilter`, enforce ownership, then soft-delete via
`updateOne {_id}` setting `isDeleted`, the placeholder content and
`updatedAt`. -/
def deleteComment (coll : List Comment) (slug commentId : String)
    (userIdentifier : Option String) (now : Nat) :
    CommentRes × List Comment :=
  if !(truthy userIdentifier) then
    (.badRequest "User identifier is required to delete", coll)
  else if !(isValidObjectId commentId) then (.internalError, coll)
  else
    match coll.find? (commentFilter commentId slug) with
    | none => (.notFound "Comment not found", coll)
    | some comment =>
        if comment.userIdentifier ≠ userIdentifier.getD "" then
          (.forbidden "You can only delete your own comments", coll)
        else if !(coll.any (fun c => c.oid == commentId)) then
          (.notFound "Comment not found", coll)
        else
          let coll2 := updateFirst (fun c => c.oid == commentId)
            (fun c => { c with isDeleted := true,
                               content := deletedPlaceholder,
                               updatedAt := now }) coll
          (.okDeleted "Comment deleted successfully", coll2)

/-- A root comment together with its attached ordered replies, as emitted by
the thread endpoint. -/
structure ThreadItem where
  root : Comment
  replies : List Comment
deriving DecidableEq, Repr

/-- Filter for top-level comments of a slug:
`{blogSlug, parentId: null, isDeleted: {$ne: true}}`. -/
def rootFilter (slug : String) (c : Comment) : Bool :=
  c.blogSlug == slug && c.parentId == none && !c.isDeleted

/-- Filter for the non-deleted replies of a root comment:
`{parentId: root._id.toString(), isDeleted: {$ne: true}}`. -/
def replyFilter (root : Comment) (c : Comment) : Bool :=
  c.parentId == some root.oid && !c.isDeleted

/-- Mongo sort `{createdAt: -1}` as a boolean precedence relation. -/
def newestLe (a b : Comment) : Bool := decide (b.createdAt ≤ a.createdAt)

/-- Mongo sort `{likes: -1, createdAt: -1}` as a boolean precedence
relation: likes descending, ties broken by createdAt descending. -/
def popularLe (a b : Comment) : Bool :=
  decide (b.likes < a.likes) ||
    (a.likes == b.likes && decide (b.createdAt ≤ a.createdAt))

/-- Mongo sort `{createdAt: 1}` for replies. -/
def replyLe (a b : Comment) : Bool := decide (a.createdAt ≤ b.createdAt)

/-- `GET /blogs/:slug/comments` (`src/unnamed/part_000` lines 343-400):
fetch the non-deleted top-level comments of the slug, sort them newest-first
(or by likes for `sort=popular`; any other value falls back to newest),
attach to each root its non-deleted replies sorted oldest-first, and report
the number of roots as `count`. -/
def assembleThread (coll : List Comment) (slug : String)
    (sort : Option String) : List ThreadItem × Nat :=
  let roots := coll.filter (rootFilter slug)
  let sorted :=
    if sort.getD "newest" == "popular" then roots.mergeSort popularLe
    else roots.mergeSort newestLe
  (sorted.map (fun c =>
      { root := c, replies := (coll.filter (replyFilter c)).mergeSort replyLe }),
   sorted.length)

/-- Concrete blog used by the C9 witness. -/
def c9blog : Blog :=
  { slug := "foo", likes := 2, views := 7, likedBy := some ["u1"],
    lastViewed := none }

/-- Concrete blog used by the C2 witness. -/
def c2blog : Blog :=
  { slug := "foo", likes := 0, views := 0, likedBy := some [], lastViewed := none }

/-- Concrete blog used by the C5 witness. -/
def c5blog : Blog :=
  { slug := "baz", likes := 1, views := 4, likedBy := some ["u2"],
    lastViewed := none }

/-- Concrete collection holding a root comment and a reply, used by the C3 counterexample. -/
def c3coll : List Comment :=
  [⟨"aaaaaaaaaaaaaaaaaaaaaaaa", "foo", "root", none,
    ⟨"A", "a@x.com", "v"⟩, 0, [], false, false, 1, 1, "id1"⟩,
   ⟨"bbbbbbbbbbbbbbbbbbbbbbbb", "foo", "reply",
    some "aaaaaaaaaaaaaaaaaaaaaaaa",
    ⟨"B", "b@x.com", "v"⟩, 0, [], false, false, 2, 2, "id2"⟩]

/-- Concrete root comment used by the C3 witness. -/
def c3root : Comment :=
  ⟨"aaaaaaaaaaaaaaaaaaaaaaaa", "foo", "root", none,
   ⟨"A", "a@x.com", "v"⟩, 0, [], false, false, 1, 1, "id1"⟩

/-- Concrete comment used by the C6 witness. -/
def c6cm : Comment :=
  ⟨"aaaaaaaaaaaaaaaaaaaaaaaa", "foo", "old", none,
   ⟨"A", "a@x.com", "v"⟩, 0, [], false, false, 1, 1, "owner"⟩

/-- Concrete root comment used by the C7 witness. -/
def c7cm : Comment :=
  ⟨"aaaaaaaaaaaaaaaaaaaaaaaa", "foo", "root", none,
   ⟨"A", "a@x.com", "v"⟩, 0, [], false, false, 1, 1, "owner"⟩

/-- Concrete reply of `c7cm`, used by the C7 witness. -/
def c7reply : Comment :=
  ⟨"bbbbbbbbbbbbbbbbbbbbbbbb", "foo", "re", some "aaaaaaaaaaaaaaaaaaaaaaaa",
   ⟨"B", "b@x.com", "v"⟩, 0, [], false, false, 2, 2, "o2"⟩

/-- Concrete root comment (newer, no likes) used by the C8 witness. -/
def c8r1 : Comment :=
  ⟨"aaaaaaaaaaaaaaaaaaaaaaaa", "foo", "c1", none,
   ⟨"A", "a@x.com", "v"⟩, 0, [], false, false, 5, 5, "i1"⟩

/-- Concrete root comment (older, two likes) used by the C8 witness. -/
def c8r2 : Comment :=
  ⟨"bbbbbbbbbbbbbbbbbbbbbbbb", "foo", "c2", none,
   ⟨"B", "b@x.com", "v"⟩, 2, [], false, false, 3, 3, "i2"⟩

/-- Concrete reply of `c8r1`, used by the C8 witness. -/
def c8rep : Comment :=
  ⟨"cccccccccccccccccccccccc", "foo", "c3", some "aaaaaaaaaaaaaaaaaaaaaaaa",
   ⟨"C", "c@x.com", "v"⟩, 0, [], false, false, 4, 4, "i3"⟩

theorem length_updateFirst (p : α → Bool) (f : α → α) (l : List α) :
    (updateFirst p f l).length = l.length := by
  induction l with
  | nil => rfl
  | cons x xs ih =>
    simp only [updateFirst]
    split <;> simp [ih]

theorem find?_updateFirst (p : α → Bool) (f : α → α) (l : List α) (b : α)
    (hb : l.find? p = some b) (hf : p (f b) = true) :
    (updateFirst p f l).find? p = some (f b) := by
  induction l with
  | nil => simp at hb
  | cons x xs ih =>
    simp only [updateFirst]
    by_cases hx : p x = true
    · rw [List.find?_cons_of_pos _ hx] at hb
      cases hb
      rw [if_pos hx, List.find?_cons_of_pos _ hf]
    · rw [List.find?_cons_of_neg _ hx] at hb
      rw [if_neg hx, List.find?_cons_of_neg _ hx]
      exact ih hb

theorem mem_updateFirst_of_neg (p : α → Bool) (f : α → α) (l : List α)
    (x : α) (hx : x ∈ l) (hpx : p x = false) : x ∈ updateFirst p f l := by
  induction l with
  | nil => simp at hx
  | cons y ys ih =>
    simp only [updateFirst]
    rcases List.mem_cons.mp hx with h | h
    · subst h
      simp [hpx]
    · split
      · exact List.mem_cons_of_mem _ h
      · exact List.mem_cons_of_mem _ (ih h)

/-- Updating the first match only depends on the value of the first match. -/
theorem updateFirst_congr (p : α → Bool) (f g : α → α) (l : List α) (b : α)
    (hb : l.find? p = some b) (hfg : f b = g b) :
    updateFirst p f l = updateFirst p g l := by
  induction l with
  | nil => rfl
  | cons x xs ih =>
    by_cases hx : p x = true
    · rw [List.find?_cons_of_pos _ hx] at hb
      cases hb
      simp only [updateFirst, if_pos hx, hfg]
    · rw [List.find?_cons_of_neg _ hx] at hb
      simp only [updateFirst, if_neg hx, ih hb]

/-- Normal form of the read-modify-write stats handler on a view action when the blog exists. -/
theorem statsRMW_view_found (coll : List Blog) (slug : String)
    (uid : Option String) (now : Nat) (b : Blog)
    (hfind : coll.find? (fun x => x.slug == slug) = some b) :
    statsRMW coll slug (some "view") uid now =
      (.ok "Blog viewd successfully" b.likes (b.views + 1)
        (match b.likedBy with | none => false | some l => includesOpt l uid),
       updateFirst (fun x => x.slug == slug)
         (applyUpdate (.viewUpd now (b.likedBy.getD []))) coll) := by
  have hpb : (b.slug == slug) = true := by
    simpa using List.find?_some hfind
  have hpf : ((applyUpdate (.viewUpd now (b.likedBy.getD [])) b).slug == slug)
      = true := by
    simpa [applyUpdate] using hpb
  have hup := find?_updateFirst (fun x => x.slug == slug)
    (applyUpdate (.viewUpd now (b.likedBy.getD []))) coll b hfind hpf
  simp only [statsRMW, statsApply, truthy, hfind, hup]
  simp [applyUpdate]
  decide

/-- State reached by a view action: views incremented, lastViewed set. -/
theorem statsRMW_view_state (coll : List Blog) (slug : String)
    (uid : Option String) (now : Nat) (b : Blog)
    (hfind : coll.find? (fun x => x.slug == slug) = some b) :
    (statsRMW coll slug (some "view") uid now).2.find?
        (fun x => x.slug == slug) =
      some { b with views := b.views + 1, lastViewed := some now,
                    likedBy := some (b.likedBy.getD []) } := by
  have hpb : (b.slug == slug) = true := by
    simpa using List.find?_some hfind
  have hpf : ((applyUpdate (.viewUpd now (b.likedBy.getD [])) b).slug == slug)
      = true := by
    simpa [applyUpdate] using hpb
  have hup := find?_updateFirst (fun x => x.slug == slug)
    (applyUpdate (.viewUpd now (b.likedBy.getD []))) coll b hfind hpf
  rw [statsRMW_view_found coll slug uid now b hfind]
  simpa [applyUpdate] using hup

/-- N sequential view actions add exactly N to the stored views counter. -/
theorem viewIter_views (slug : String) (uid : Option String) (now : Nat) :
    ∀ (n : Nat) (coll : List Blog) (b : Blog),
      coll.find? (fun x => x.slug == slug) = some b →
      ((viewIter slug uid now n coll).find? (fun x => x.slug == slug)).map
        Blog.views = some (b.views + n)
  | 0, coll, b, h => by simp [viewIter, h]
  | n + 1, coll, b, h => by
      have hstate := statsRMW_view_state coll slug uid now b h
      have ih := viewIter_views slug uid now n
        (statsRMW coll slug (some "view") uid now).2 _ hstate
      simp only [viewIter]
      rw [ih]
      simp only [Option.some.injEq]
      omega

/-- Normal form of the read-modify-write stats handler on a like action from an identity not yet in likedBy. -/
theorem statsRMW_like_new (coll : List Blog) (slug u : String) (now : Nat)
    (b : Blog)
    (hu : u.isEmpty = false)
    (hfind : coll.find? (fun x => x.slug == slug) = some b)
    (hnot : (b.likedBy.getD []).contains u = false) :
    (statsRMW coll slug (some "like") (some u) now).1 =
      .ok "Blog liked successfully" (b.likes + 1) b.views true ∧
    (statsRMW coll slug (some "like") (some u) now).2.find?
        (fun x => x.slug == slug) =
      some { b with likes := b.likes + 1,
                    likedBy := some ((b.likedBy.getD []) ++ [u]) } := by
  have hpb : (b.slug == slug) = true := by simpa using List.find?_some hfind
  have hlk : "like".isEmpty = false := by decide
  cases hlb : b.likedBy with
  | none =>
    have hpf : ((applyUpdate (.likeInit u) b).slug == slug) = true := by
      simpa [applyUpdate] using hpb
    have hup := find?_updateFirst (fun x => x.slug == slug)
      (applyUpdate (.likeInit u)) coll b hfind hpf
    simp [statsRMW, statsApply, truthy, hfind, hlb, hup, applyUpdate, hu,
      hnot, hlk]
  | some l =>
    have hlnot : u ∉ l := by
      simpa [hlb] using hnot
    have hpf : ((applyUpdate (.likePush u) b).slug == slug) = true := by
      simpa [applyUpdate] using hpb
    have hup := find?_updateFirst (fun x => x.slug == slug)
      (applyUpdate (.likePush u)) coll b hfind hpf
    simp [statsRMW, statsApply, truthy, hfind, hlb, hup, applyUpdate, hu,
      hlnot, hlk]

/-- A like action from an identity already in likedBy takes the No-update-needed branch: 200, current state reported, collection untouched. -/
theorem statsRMW_like_dup (coll : List Blog) (slug u : String) (now : Nat)
    (b : Blog) (l : List String)
    (hu : u.isEmpty = false)
    (hfind : coll.find? (fun x => x.slug == slug) = some b)
    (hlb : b.likedBy = some l)
    (hmem : l.contains u = true) :
    statsRMW coll slug (some "like") (some u) now =
      (.ok "No update needed" b.likes b.views true, coll) := by
  have hmem2 : u ∈ l := by simpa using hmem
  have hlk : "like".isEmpty = false := by decide
  simp [statsRMW, statsApply, truthy, hfind, hlb, hu, hlk, hmem2, includesOpt]

/-- Transitivity of the newest-first comparator. -/
theorem newestLe_trans : ∀ a b c : Comment, newestLe a b = true →
    newestLe b c = true → newestLe a c = true := by
  intro a b c
  simp only [newestLe, decide_eq_true_eq]
  omega

/-- Totality of the newest-first comparator. -/
theorem newestLe_total : ∀ a b : Comment,
    (newestLe a b || newestLe b a) = true := by
  intro a b
  simp only [newestLe, Bool.or_eq_true, decide_eq_true_eq]
  omega

/-- Transitivity of the popular comparator (likes descending, createdAt descending on ties). -/
theorem popularLe_trans : ∀ a b c : Comment, popularLe a b = true →
    popularLe b c = true → popularLe a c = true := by
  intro a b c
  simp only [popularLe, Bool.or_eq_true, Bool.and_eq_true, decide_eq_true_eq,
    beq_iff_eq]
  omega

/-- Totality of the popular comparator. -/
theorem popularLe_total : ∀ a b : Comment,
    (popularLe a b || popularLe b a) = true := by
  intro a b
  simp only [popularLe, Bool.or_eq_true, Bool.and_eq_true, decide_eq_true_eq,
    beq_iff_eq]
  omega

/-- Transitivity of the reply comparator (createdAt ascending). -/
theorem replyLe_trans : ∀ a b c : Comment, replyLe a b = true →
    replyLe b c = true → replyLe a c = true := by
  intro a b c
  simp only [replyLe, decide_eq_true_eq]
  omega

/-- Totality of the reply comparator. -/
theorem replyLe_total : ∀ a b : Comment,
    (replyLe a b || replyLe b a) = true := by
  intro a b
  simp only [replyLe, Bool.or_eq_true, decide_eq_true_eq]
  omega

/-- Claim C1, code bug witnessed: the active POST /blogs/:slug/stats handler of src/index.js, on a post with likes = 1 and likedBy = [u1], answers a further like from u1 with 200 and likes = 2 while likedBy is unchanged, so the |likedBy| = likes invariant is broken by the unconditional $inc paired with the deduplicating $addToSet. -/
theorem c1_like_when_already_liked :
    statsAtomic [⟨"foo", 1, 0, some ["u1"], none⟩] "foo" (some "like")
        (some "u1") 0 =
      (.ok "Blog liked successfully" 2 0 true,
       [⟨"foo", 2, 0, some ["u1"], none⟩]) := by decide

/-- Claim C2, amended: liking a post twice with the same fresh identity (read-modify-write handler of src/unnamed/part_000): the first call returns 200 with likes incremented; the second call takes the No-update-needed branch and returns 200 with isLiked = true and likes still equal to the value after the first call, leaving the stored state untouched.  The like action is an idempotent no-op on repetition, not a toggle. -/
theorem c2_like_twice (coll : List Blog) (slug u : String) (now1 now2 : Nat)
    (b : Blog)
    (hu : u.isEmpty = false)
    (hfind : coll.find? (fun x => x.slug == slug) = some b)
    (hnot : (b.likedBy.getD []).contains u = false) :
    (statsRMW coll slug (some "like") (some u) now1).1 =
      .ok "Blog liked successfully" (b.likes + 1) b.views true ∧
    statsRMW (statsRMW coll slug (some "like") (some u) now1).2 slug
        (some "like") (some u) now2 =
      (.ok "No update needed" (b.likes + 1) b.views true,
       (statsRMW coll slug (some "like") (some u) now1).2) := by
  obtain ⟨h1, h2⟩ := statsRMW_like_new coll slug u now1 b hu hfind hnot
  refine ⟨h1, ?_⟩
  have hmem : ((b.likedBy.getD []) ++ [u]).contains u = true := by simp
  exact statsRMW_like_dup (statsRMW coll slug (some "like") (some u) now1).2
    slug u now2 _ _ hu h2 rfl hmem

/-- Claim C2 witness: the amended statement evaluated on a concrete singleton collection. -/
theorem c2_like_twice_witness :
    ("u1".isEmpty = false) ∧
    ([c2blog].find? (fun x => x.slug == "foo") = some c2blog) ∧
    ((c2blog.likedBy.getD []).contains "u1" = false) ∧
    statsRMW (statsRMW [c2blog] "foo" (some "like") (some "u1") 1).2 "foo"
        (some "like") (some "u1") 2 =
      (.ok "No update needed" (c2blog.likes + 1) c2blog.views true,
       (statsRMW [c2blog] "foo" (some "like") (some "u1") 1).2) :=
  ⟨by decide, by decide, by decide,
   (c2_like_twice [c2blog] "foo" "u1" 1 2 c2blog (by decide) (by decide)
     (by decide)).2⟩

/-- Claim C2 counterexample: on a concrete post with no likes, liking twice as u1 makes the second call report isLiked = true and likes = 1, refuting the claimed isLiked = false with likes back to 0. -/
theorem c2_counterexample :
    (statsRMW (statsRMW [⟨"foo", 0, 0, some [], none⟩] "foo" (some "like")
        (some "u1") 1).2 "foo" (some "like") (some "u1") 2).1.isLikedOf =
      some true ∧
    (statsRMW (statsRMW [⟨"foo", 0, 0, some [], none⟩] "foo" (some "like")
        (some "u1") 1).2 "foo" (some "like") (some "u1") 2).1.likesOf =
      some 1 ∧
    ¬ ((statsRMW (statsRMW [⟨"foo", 0, 0, some [], none⟩] "foo" (some "like")
        (some "u1") 1).2 "foo" (some "like") (some "u1") 2).1.isLikedOf =
          some false ∧
       (statsRMW (statsRMW [⟨"foo", 0, 0, some [], none⟩] "foo" (some "like")
        (some "u1") 1).2 "foo" (some "like") (some "u1") 2).1.likesOf =
          some 0) := by decide

/-- Claim C3, amended: the parent lookup of POST /blogs/:slug/comments checks only existence and slug: a missing or foreign-slug parent yields 404, but a parent that is itself a reply (non-null parentId) is accepted and the reply is created; the top-level-only constraint of the claim is not enforced. -/
theorem c3_parent_lookup (coll : List Comment) (slug pid c an ae : String)
    (av : Option String) (ident fid : String) (now : Nat)
    (hc : c.isEmpty = false) (hct : (jsTrim c).isEmpty = false)
    (han : an.isEmpty = false) (hae : ae.isEmpty = false)
    (hpid : pid.isEmpty = false) (hvalid : isValidObjectId pid = true) :
    (coll.find? (fun x => x.oid == pid && x.blogSlug == slug) = none →
      createComment coll slug (some c) (some pid) (some an) (some ae) av
        ident fid now = (.notFound "Parent comment not found", coll)) ∧
    (∀ parent, coll.find? (fun x => x.oid == pid && x.blogSlug == slug) =
        some parent →
      ∃ nc, createComment coll slug (some c) (some pid) (some an) (some ae) av
          ident fid now = (.created "Reply posted successfully" nc, coll ++ [nc]) ∧
        nc.parentId = some pid ∧ nc.blogSlug = slug ∧ nc.oid = fid ∧
        nc.isDeleted = false ∧ nc.likes = 0) := by
  constructor
  · intro h
    simp [createComment, truthy, hc, hct, han, hae, hpid, hvalid, h]
  · intro parent h
    refine ⟨{ oid := fid, blogSlug := slug, content := jsTrim c,
              parentId := some pid,
              author := { name := jsTrim an, email := jsTrim ae,
                          avatar := (match av with
                            | some a =>
                                if a.isEmpty then defaultAvatar (jsTrim an)
                                else a
                            | none => defaultAvatar (jsTrim an)) },
              likes := 0, likedBy := [], isEdited := false, isDeleted := false,
              createdAt := now, updatedAt := now, userIdentifier := ident },
            ?_, rfl, rfl, rfl, rfl, rfl⟩
    simp [createComment, truthy, hc, hct, han, hae, hpid, hvalid, h]

/-- Claim C3 witness: the amended statement evaluated on concrete collections. -/
theorem c3_parent_lookup_witness :
    ("hi".isEmpty = false) ∧ ((jsTrim "hi").isEmpty = false) ∧
    (isValidObjectId "aaaaaaaaaaaaaaaaaaaaaaaa" = true) ∧
    createComment [] "foo" (some "hi") (some "aaaaaaaaaaaaaaaaaaaaaaaa")
      (some "A") (some "a@x.com") none "id9" "dddddddddddddddddddddddd" 9 =
      (.notFound "Parent comment not found", []) ∧
    (∃ nc, createComment [c3root] "foo" (some "hi")
        (some "aaaaaaaaaaaaaaaaaaaaaaaa") (some "A") (some "a@x.com") none
        "id9" "dddddddddddddddddddddddd" 9 =
        (.created "Reply posted successfully" nc, [c3root] ++ [nc]) ∧
      nc.parentId = some "aaaaaaaaaaaaaaaaaaaaaaaa" ∧ nc.blogSlug = "foo" ∧
      nc.oid = "dddddddddddddddddddddddd" ∧ nc.isDeleted = false ∧
      nc.likes = 0) :=
  ⟨by decide, by decide, by decide,
   (c3_parent_lookup [] "foo" "aaaaaaaaaaaaaaaaaaaaaaaa" "hi" "A" "a@x.com"
     none "id9" "dddddddddddddddddddddddd" 9 (by decide) (by decide)
     (by decide) (by decide) (by decide) (by decide)).1 (by decide),
   (c3_parent_lookup [c3root] "foo" "aaaaaaaaaaaaaaaaaaaaaaaa" "hi" "A"
     "a@x.com" none "id9" "dddddddddddddddddddddddd" 9 (by decide)
     (by decide) (by decide) (by decide) (by decide) (by decide)).2 c3root
     (by decide)⟩

/-- Claim C3 counterexample: a createComment request whose parentId references an existing same-slug comment that is itself a reply succeeds with 201 instead of failing with 404. -/
theorem c3_counterexample :
    (createComment c3coll "foo" (some "hi")
      (some "bbbbbbbbbbbbbbbbbbbbbbbb") (some "A") (some "a@x.com") none
      "id3" "cccccccccccccccccccccccc" 3).1.status = 201 ∧
    ¬ ((createComment c3coll "foo" (some "hi")
      (some "bbbbbbbbbbbbbbbbbbbbbbbb") (some "A") (some "a@x.com") none
      "id3" "cccccccccccccccccccccccc" 3).1.status = 404) := by decide

/-- Claim C4, code bug witnessed: the active stats handler of src/index.js answers an unlike from an identity not in likedBy with 200 success, yet decrements the stored likes to -1 instead of leaving the document unchanged. -/
theorem c4_unlike_when_not_liked :
    statsAtomic [⟨"bar", 0, 3, some [], none⟩] "bar" (some "unlike")
        (some "u1") 0 =
      (.ok "Blog unliked successfully" (-1) 3 false,
       [⟨"bar", -1, 3, some [], none⟩]) := by decide

/-- Claim C5, amended: the two stats-handler variants agree (same response, same new state) for view actions, for like from an identity not in likedBy and for unlike from an identity in likedBy, on a blog whose likedBy field is present; they are not equivalent on the no-op edges, as the counterexample shows. -/
theorem c5_variants_agree (coll : List Blog) (slug u : String)
    (uid : Option String) (now : Nat) (b : Blog) (l : List String)
    (hu : u.isEmpty = false)
    (hfind : coll.find? (fun x => x.slug == slug) = some b)
    (hlb : b.likedBy = some l) :
    (l.contains u = false →
      statsAtomic coll slug (some "like") (some u) now =
        statsRMW coll slug (some "like") (some u) now) ∧
    (l.contains u = true →
      statsAtomic coll slug (some "unlike") (some u) now =
        statsRMW coll slug (some "unlike") (some u) now) ∧
    statsAtomic coll slug (some "view") uid now =
      statsRMW coll slug (some "view") uid now := by
  have hpb : (b.slug == slug) = true := by simpa using List.find?_some hfind
  refine ⟨?_, ?_, ?_⟩
  · intro hcon
    have hmem : u ∉ l := by simpa using hcon
    have hfb : applyUpdate (.likeAddToSet u) b = applyUpdate (.likePush u) b := by
      simp [applyUpdate, hlb, hmem]
    have hcong := updateFirst_congr (fun x => x.slug == slug)
      (applyUpdate (.likeAddToSet u)) (applyUpdate (.likePush u)) coll b
      hfind hfb
    have hpf : ((applyUpdate (.likePush u) b).slug == slug) = true := by
      simpa [applyUpdate] using hpb
    have hup := find?_updateFirst (fun x => x.slug == slug)
      (applyUpdate (.likePush u)) coll b hfind hpf
    have hlk : "like".isEmpty = false := by decide
    simp [statsAtomic, statsRMW, statsApply, truthy, hfind, hlb, hu, hlk,
      hcon, hmem, hcong, hup, applyUpdate, includesOpt]
  · intro hcon
    have hmem : u ∈ l := by simpa using hcon
    have hpf : ((applyUpdate (.unlikePull u) b).slug == slug) = true := by
      simpa [applyUpdate] using hpb
    have hup := find?_updateFirst (fun x => x.slug == slug)
      (applyUpdate (.unlikePull u)) coll b hfind hpf
    have hlk : "unlike".isEmpty = false := by decide
    simp [statsAtomic, statsRMW, statsApply, truthy, hfind, hlb, hu, hlk,
      hmem, hup, applyUpdate, includesOpt]
  · have hfb : applyUpdate (.viewUpdAtomic now) b =
        applyUpdate (.viewUpd now l) b := by
      simp [applyUpdate, hlb]
    have hcong := updateFirst_congr (fun x => x.slug == slug)
      (applyUpdate (.viewUpdAtomic now))
      (applyUpdate (.viewUpd now l)) coll b hfind hfb
    have hpf : ((applyUpdate (.viewUpd now l) b).slug == slug)
        = true := by
      simpa [applyUpdate] using hpb
    have hup := find?_updateFirst (fun x => x.slug == slug)
      (applyUpdate (.viewUpd now l)) coll b hfind hpf
    have hlk : "view".isEmpty = false := by decide
    simp [statsAtomic, statsRMW, statsApply, truthy, hfind, hlb, hlk,
      hcong, hup, applyUpdate, includesOpt]

/-- Claim C5 witness: agreement of the two variants evaluated on a concrete collection. -/
theorem c5_variants_agree_witness :
    ("u1".isEmpty = false) ∧
    ([c5blog].find? (fun x => x.slug == "baz") = some c5blog) ∧
    (["u2"].contains "u1" = false) ∧
    statsAtomic [c5blog] "baz" (some "like") (some "u1") 9 =
      statsRMW [c5blog] "baz" (some "like") (some "u1") 9 :=
  ⟨by decide, by decide, by decide,
   (c5_variants_agree [c5blog] "baz" "u1" none 9 c5blog ["u2"] (by decide)
     (by decide) (by decide)).1 (by decide)⟩

/-- Claim C5 counterexample: for a like from an identity already in likedBy the two variants disagree: the atomic variant reports likes = 2, the read-modify-write variant reports likes = 1, refuting observable equivalence and in particular the claimed equal new likes value. -/
theorem c5_counterexample :
    statsAtomic [⟨"baz", 1, 0, some ["u1"], none⟩] "baz" (some "like")
        (some "u1") 0 ≠
      statsRMW [⟨"baz", 1, 0, some ["u1"], none⟩] "baz" (some "like")
        (some "u1") 0 ∧
    (statsAtomic [⟨"baz", 1, 0, some ["u1"], none⟩] "baz" (some "like")
        (some "u1") 0).1.likesOf = some 2 ∧
    (statsRMW [⟨"baz", 1, 0, some ["u1"], none⟩] "baz" (some "like")
        (some "u1") 0).1.likesOf = some 1 := by decide

/-- Claim C6: editing or deleting an existing non-deleted comment with a userIdentifier different from the one stored at creation fails with 403 and leaves the collection unchanged; with the matching identifier the edit returns 200 and stores the trimmed content with isEdited = true and a fresh updatedAt, and the delete returns 200 and stores the soft-deleted record. -/
theorem c6_owner_auth (coll : List Comment) (slug cid c u : String)
    (now : Nat) (cm : Comment)
    (hc : c.isEmpty = false) (hct : (jsTrim c).isEmpty = false)
    (hu : u.isEmpty = false)
    (hvalid : isValidObjectId cid = true)
    (hfind : coll.find? (commentFilter cid slug) = some cm)
    (hfindId : coll.find? (fun x => x.oid == cid) = some cm) :
    (cm.userIdentifier ≠ u →
      editComment coll slug cid (some c) (some u) now =
        (.forbidden "You can only edit your own comments", coll) ∧
      deleteComment coll slug cid (some u) now =
        (.forbidden "You can only delete your own comments", coll)) ∧
    (cm.userIdentifier = u →
      (editComment coll slug cid (some c) (some u) now).1 =
        .okComment "Comment updated successfully"
          { cm with content := jsTrim c, isEdited := true, updatedAt := now } ∧
      (editComment coll slug cid (some c) (some u) now).2.find?
          (fun x => x.oid == cid) =
        some { cm with content := jsTrim c, isEdited := true,
                       updatedAt := now } ∧
      (deleteComment coll slug cid (some u) now).1 =
        .okDeleted "Comment deleted successfully" ∧
      (deleteComment coll slug cid (some u) now).2.find?
          (fun x => x.oid == cid) =
        some { cm with isDeleted := true, content := deletedPlaceholder,
                       updatedAt := now }) := by
  have hpb : (cm.oid == cid) = true := by simpa using List.find?_some hfindId
  have hany : coll.any (fun x => x.oid == cid) = true :=
    List.any_eq_true.mpr ⟨cm, List.mem_of_find?_eq_some hfindId, hpb⟩
  constructor
  · intro hne
    constructor <;>
      simp [editComment, deleteComment, truthy, hc, hct, hu, hvalid, hfind,
        hne]
  · intro heq
    have hupE := find?_updateFirst (fun x => x.oid == cid)
      (fun x => { x with content := jsTrim c, isEdited := true,
                         updatedAt := now })
      coll cm hfindId (by simpa using hpb)
    have hupD := find?_updateFirst (fun x => x.oid == cid)
      (fun x => { x with isDeleted := true, content := deletedPlaceholder,
                         updatedAt := now })
      coll cm hfindId (by simpa using hpb)
    refine ⟨?_, ?_, ?_, ?_⟩ <;>
      simp [editComment, deleteComment, truthy, hc, hct, hu, hvalid, hfind,
        heq, hany, hupE, hupD]

/-- Claim C6 witness: both branches evaluated on a concrete comment. -/
theorem c6_owner_auth_witness :
    (editComment [c6cm] "foo" "aaaaaaaaaaaaaaaaaaaaaaaa" (some "new")
        (some "evil") 5 =
      (.forbidden "You can only edit your own comments", [c6cm]) ∧
     deleteComment [c6cm] "foo" "aaaaaaaaaaaaaaaaaaaaaaaa" (some "evil") 5 =
      (.forbidden "You can only delete your own comments", [c6cm])) ∧
    (editComment [c6cm] "foo" "aaaaaaaaaaaaaaaaaaaaaaaa" (some "new")
        (some "owner") 5).1 =
      .okComment "Comment updated successfully"
        { c6cm with content := jsTrim "new", isEdited := true,
                    updatedAt := 5 } :=
  ⟨(c6_owner_auth [c6cm] "foo" "aaaaaaaaaaaaaaaaaaaaaaaa" "new" "evil" 5
      c6cm (by decide) (by decide) (by decide) (by decide) (by decide)
      (by decide)).1 (by decide),
   ((c6_owner_auth [c6cm] "foo" "aaaaaaaaaaaaaaaaaaaaaaaa" "new" "owner" 5
      c6cm (by decide) (by decide) (by decide) (by decide) (by decide)
      (by decide)).2 (by decide)).1⟩

/-- Claim C7: a successful soft delete answers 200, keeps the collection length, rewrites exactly isDeleted, content (fixed placeholder) and updatedAt on the target while every other comment survives unchanged, and any reply whose parentId references the target still resolves to a stored record with that id. -/
theorem c7_soft_delete (coll : List Comment) (slug cid u : String)
    (now : Nat) (cm : Comment)
    (hu : u.isEmpty = false)
    (hvalid : isValidObjectId cid = true)
    (hfind : coll.find? (commentFilter cid slug) = some cm)
    (hfindId : coll.find? (fun x => x.oid == cid) = some cm)
    (hown : cm.userIdentifier = u) :
    (deleteComment coll slug cid (some u) now).1 =
      .okDeleted "Comment deleted successfully" ∧
    (deleteComment coll slug cid (some u) now).2.length = coll.length ∧
    (deleteComment coll slug cid (some u) now).2.find?
        (fun x => x.oid == cid) =
      some { cm with isDeleted := true, content := deletedPlaceholder,
                     updatedAt := now } ∧
    (∀ x ∈ coll, (x.oid == cid) = false →
      x ∈ (deleteComment coll slug cid (some u) now).2) ∧
    (∀ r ∈ (deleteComment coll slug cid (some u) now).2,
      r.parentId = some cid →
      ∃ q, (deleteComment coll slug cid (some u) now).2.find?
          (fun x => x.oid == cid) = some q ∧ q.oid = cid ∧
        q.isDeleted = true) := by
  have hpb : (cm.oid == cid) = true := by simpa using List.find?_some hfindId
  have hany : coll.any (fun x => x.oid == cid) = true :=
    List.any_eq_true.mpr ⟨cm, List.mem_of_find?_eq_some hfindId, hpb⟩
  have hupD := find?_updateFirst (fun x => x.oid == cid)
    (fun x => { x with isDeleted := true, content := deletedPlaceholder,
                       updatedAt := now })
    coll cm hfindId (by simpa using hpb)
  have heqD : deleteComment coll slug cid (some u) now =
      (.okDeleted "Comment deleted successfully",
       updateFirst (fun x => x.oid == cid)
         (fun x => { x with isDeleted := true, content := deletedPlaceholder,
                            updatedAt := now }) coll) := by
    simp [deleteComment, truthy, hu, hvalid, hfind, hown, hany]
  refine ⟨by rw [heqD], ?_, ?_, ?_, ?_⟩
  · rw [heqD]
    exact length_updateFirst _ _ _
  · rw [heqD]
    exact hupD
  · intro x hx hpx
    rw [heqD]
    exact mem_updateFirst_of_neg _ _ _ _ hx hpx
  · intro r hr hp
    refine ⟨{ cm with isDeleted := true, content := deletedPlaceholder,
                      updatedAt := now }, ?_, by simpa using hpb, rfl⟩
    rw [heqD]
    exact hupD

/-- Claim C7 witness: soft delete of a concrete root comment with one reply. -/
theorem c7_soft_delete_witness :
    (deleteComment [c7cm, c7reply] "foo" "aaaaaaaaaaaaaaaaaaaaaaaa"
        (some "owner") 9).1 = .okDeleted "Comment deleted successfully" ∧
    (deleteComment [c7cm, c7reply] "foo" "aaaaaaaaaaaaaaaaaaaaaaaa"
        (some "owner") 9).2.find?
        (fun x => x.oid == "aaaaaaaaaaaaaaaaaaaaaaaa") =
      some { c7cm with isDeleted := true, content := deletedPlaceholder,
                       updatedAt := 9 } ∧
    c7reply ∈ (deleteComment [c7cm, c7reply] "foo"
        "aaaaaaaaaaaaaaaaaaaaaaaa" (some "owner") 9).2 :=
  ⟨(c7_soft_delete [c7cm, c7reply] "foo" "aaaaaaaaaaaaaaaaaaaaaaaa" "owner"
      9 c7cm (by decide) (by decide) (by decide) (by decide) (by decide)).1,
   (c7_soft_delete [c7cm, c7reply] "foo" "aaaaaaaaaaaaaaaaaaaaaaaa" "owner"
      9 c7cm (by decide) (by decide) (by decide) (by decide)
      (by decide)).2.2.1,
   (c7_soft_delete [c7cm, c7reply] "foo" "aaaaaaaaaaaaaaaaaaaaaaaa" "owner"
      9 c7cm (by decide) (by decide) (by decide) (by decide)
      (by decide)).2.2.2.1 c7reply (by decide) (by decide)⟩

/-- Claim C8: the thread endpoint returns exactly the non-deleted top-level comments of the slug (as a permutation), ordered by createdAt descending for sort newest or absent and by likes descending with createdAt-descending ties for sort popular, each root carrying exactly its non-deleted replies ordered by createdAt ascending. -/
theorem c8_assembleThread (coll : List Comment) (slug : String)
    (sort : Option String) :
    ((assembleThread coll slug sort).1.map ThreadItem.root).Perm
      (coll.filter (rootFilter slug)) ∧
    (sort = none ∨ sort = some "newest" →
      ((assembleThread coll slug sort).1.map ThreadItem.root).Pairwise
        (fun a b => b.createdAt ≤ a.createdAt)) ∧
    (sort = some "popular" →
      ((assembleThread coll slug sort).1.map ThreadItem.root).Pairwise
        (fun a b => b.likes < a.likes ∨
          (a.likes = b.likes ∧ b.createdAt ≤ a.createdAt))) ∧
    (∀ it ∈ (assembleThread coll slug sort).1,
      it.replies.Perm (coll.filter (replyFilter it.root)) ∧
      it.replies.Pairwise (fun a b => a.createdAt ≤ b.createdAt)) := by
  have hid : ∀ l : List Comment,
      List.map (ThreadItem.root ∘ fun c =>
        ({ root := c,
           replies := (coll.filter (replyFilter c)).mergeSort replyLe } :
          ThreadItem)) l = l := by
    intro l
    simp [Function.comp_def]
  refine ⟨?_, ?_, ?_, ?_⟩
  · simp only [assembleThread, List.map_map]
    rw [hid]
    split
    · exact List.mergeSort_perm (coll.filter (rootFilter slug)) popularLe
    · exact List.mergeSort_perm (coll.filter (rootFilter slug)) newestLe
  · intro h
    have hcond : (sort.getD "newest" == "popular") = false := by
      rcases h with h | h <;> subst h <;> decide
    simp only [assembleThread, List.map_map, hcond, Bool.false_eq_true,
      if_false]
    rw [hid]
    refine List.Pairwise.imp ?_
      (List.sorted_mergeSort newestLe_trans newestLe_total
        (coll.filter (rootFilter slug)))
    intro a b hab
    simpa [newestLe] using hab
  · intro h
    subst h
    simp only [assembleThread, List.map_map]
    rw [hid, if_pos (by decide)]
    refine List.Pairwise.imp ?_
      (List.sorted_mergeSort popularLe_trans popularLe_total
        (coll.filter (rootFilter slug)))
    intro a b hab
    simpa [popularLe, Bool.or_eq_true, Bool.and_eq_true, decide_eq_true_eq,
      beq_iff_eq] using hab
  · intro it hit
    simp only [assembleThread] at hit
    rcases List.mem_map.mp (by exact hit) with ⟨cr, hcr, rfl⟩
    constructor
    · simpa using List.mergeSort_perm (coll.filter (replyFilter cr)) replyLe
    · refine List.Pairwise.imp ?_
        (List.sorted_mergeSort replyLe_trans replyLe_total
          (coll.filter (replyFilter cr)))
      intro a b hab
      simpa [replyLe] using hab

/-- Claim C8 witness: ordering and reply attachment evaluated on a concrete collection. -/
theorem c8_assembleThread_witness :
    ((assembleThread [c8r1, c8r2, c8rep] "foo" none).1.map
      ThreadItem.root).Pairwise (fun a b => b.createdAt ≤ a.createdAt) ∧
    ((assembleThread [c8r1, c8r2, c8rep] "foo" (some "popular")).1.map
      ThreadItem.root).Pairwise (fun a b => b.likes < a.likes ∨
        (a.likes = b.likes ∧ b.createdAt ≤ a.createdAt)) ∧
    (({ root := c8r1,
        replies := ([c8r1, c8r2, c8rep].filter
          (replyFilter c8r1)).mergeSort replyLe } : ThreadItem).replies.Perm
      ([c8r1, c8r2, c8rep].filter (replyFilter c8r1))) :=
  ⟨(c8_assembleThread [c8r1, c8r2, c8rep] "foo" none).2.1 (Or.inl rfl),
   (c8_assembleThread [c8r1, c8r2, c8rep] "foo" (some "popular")).2.2.1 rfl,
   ((c8_assembleThread [c8r1, c8r2, c8rep] "foo" none).2.2.2
     { root := c8r1,
       replies := ([c8r1, c8r2, c8rep].filter
         (replyFilter c8r1)).mergeSort replyLe } (by
       simp only [assembleThread]
       rw [if_neg (by decide)]
       exact List.mem_map_of_mem _ (List.mem_mergeSort.mpr (by decide)))).1⟩

/-- Claim C9: a view action on an existing post increments views by exactly 1 and sets lastViewed to now (N sequential views add exactly N); on an unknown slug the handler answers 404 and leaves the collection unchanged. -/
theorem c9_recordView (coll : List Blog) (slug : String) (uid : Option String)
    (now n : Nat) (b : Blog) :
    (coll.find? (fun x => x.slug == slug) = none →
      statsRMW coll slug (some "view") uid now = (.notFound, coll)) ∧
    (coll.find? (fun x => x.slug == slug) = some b →
      (statsRMW coll slug (some "view") uid now).1 =
        .ok "Blog viewd successfully" b.likes (b.views + 1)
          (match b.likedBy with | none => false | some l => includesOpt l uid) ∧
      (statsRMW coll slug (some "view") uid now).2.find?
          (fun x => x.slug == slug) =
        some { b with views := b.views + 1, lastViewed := some now,
                      likedBy := some (b.likedBy.getD []) } ∧
      ((viewIter slug uid now n coll).find? (fun x => x.slug == slug)).map
        Blog.views = some (b.views + n)) := by
  constructor
  · intro h
    simp only [statsRMW, truthy, h]
    rw [if_neg (by decide)]
  · intro h
    refine ⟨?_, statsRMW_view_state coll slug uid now b h,
      viewIter_views slug uid now n coll b h⟩
    rw [statsRMW_view_found coll slug uid now b h]

/-- Claim C9 witness: view semantics evaluated on a concrete collection and on the empty collection. -/
theorem c9_recordView_witness :
    ([c9blog].find? (fun x => x.slug == "foo") = some c9blog) ∧
    (statsRMW [c9blog] "foo" (some "view") none 5).1 =
      .ok "Blog viewd successfully" c9blog.likes (c9blog.views + 1) false ∧
    ((viewIter "foo" none 5 3 [c9blog]).find? (fun x => x.slug == "foo")).map
      Blog.views = some (c9blog.views + 3) ∧
    statsRMW [] "foo" (some "view") none 5 = (.notFound, []) :=
  ⟨by decide,
   ((c9_recordView [c9blog] "foo" none 5 3 c9blog).2 (by decide)).1,
   ((c9_recordView [c9blog] "foo" none 5 3 c9blog).2 (by decide)).2.2,
   (c9_recordView [] "foo" none 5 0 c9blog).1 (by decide)⟩

/-- Claim C10: on a comment-scoped request whose comment or parent id is not a well-formed ObjectId string, each of createComment (with parentId), likeComment, editComment and deleteComment answers the 500 internal error of the catch-all, not the 404 used for absent comments. -/
theorem c10_invalid_objectid (coll : List Comment)
    (slug bad c an ae u : String) (av : Option String) (ident fid : String)
    (now : Nat)
    (hbad : isValidObjectId bad = false) (hbadne : bad.isEmpty = false)
    (hc : c.isEmpty = false) (hct : (jsTrim c).isEmpty = false)
    (han : an.isEmpty = false) (hae : ae.isEmpty = false)
    (hu : u.isEmpty = false) :
    createComment coll slug (some c) (some bad) (some an) (some ae) av ident
      fid now = (.internalError, coll) ∧
    likeComment coll slug bad (some u) = (.internalError, coll) ∧
    editComment coll slug bad (some c) (some u) now = (.internalError, coll) ∧
    deleteComment coll slug bad (some u) now = (.internalError, coll) ∧
    CommentRes.status .internalError = 500 ∧
    ¬ (CommentRes.status .internalError = 404) := by
  refine ⟨?_, ?_, ?_, ?_, rfl, by decide⟩ <;>
    simp [createComment, likeComment, editComment, deleteComment, truthy,
      hbad, hbadne, hc, hct, han, hae, hu]

/-- Claim C10 witness: the malformed id xyz evaluated against the create and like endpoints. -/
theorem c10_invalid_objectid_witness :
    (isValidObjectId "xyz" = false) ∧
    likeComment [] "foo" "xyz" (some "u1") = (.internalError, []) ∧
    createComment [] "foo" (some "hi") (some "xyz") (some "A")
      (some "a@x.com") none "id" "dddddddddddddddddddddddd" 0 =
      (.internalError, []) :=
  ⟨by decide,
   (c10_invalid_objectid [] "foo" "xyz" "hi" "A" "a@x.com" "u1" none "id"
     "dddddddddddddddddddddddd" 0 (by decide) (by decide) (by decide)
     (by decide) (by decide) (by decide) (by decide)).2.1,
   (c10_invalid_objectid [] "foo" "xyz" "hi" "A" "a@x.com" "u1" none "id"
     "dddddddddddddddddddddddd" 0 (by decide) (by decide) (by decide)
     (by decide) (by decide) (by decide) (by decide)).1⟩
